import Mathlib

set_option autoImplicit false

/-!
Verification of the two ad-hoc MCP probe clients of this repository:
the request/response client (src/server/test_mcp_connection.py, class
MCPClient) and the event-stream client (src/server/test_mcp_sse.py,
class MCPSSEClient).  Python dictionaries are modelled as
insertion-ordered association lists; Python truthiness on an optional
dictionary (if params:) is: present and non-empty; on an optional
string (if self.session_id:): present and non-empty.
-/

/-- Json models the JSON values exchanged by the clients.  Objects are
insertion-ordered key/value lists, matching Python dict construction
order. -/
inductive Json where
  | null : Json
  | bool : Bool → Json
  | num : Int → Json
  | str : String → Json
  | arr : List Json → Json
  | obj : List (String × Json) → Json
deriving Repr

/-- Dict is the model of a Python Dict[str, Any]. -/
abbrev Dict := List (String × Json)

/-- Look a key up in a Json object; none when the value is not an
object or the key is absent.  Models Python key-in-dict tests and
indexing on a decoded response. -/
def getKey : Json → String → Option Json
  | Json.obj fields, k => fields.lookup k
  | _, _ => none

/-- Extract a string value, if any. -/
def getStr : Option Json → Option String
  | some (Json.str s) => some s
  | _ => none

/-- HttpResponse models the httpx response object as seen by the
request/response client: the status code, the (case-normalised)
response headers, the outcome of response.json() (error when the body
is not JSON, in which case response.json() raises and the except
branch runs), and response.text. -/
structure HttpResponse where
  status : Nat
  headers : List (String × String)
  jsonBody : Except String Json
  text : String

/-- TransportResult models the outcome of an awaited client.post:
either the call raised an exception (failure, carrying str(e), which
Python does not guarantee to be non-empty) or a response arrived. -/
inductive TransportResult where
  | failure : String → TransportResult
  | success : HttpResponse → TransportResult

/-- MCPClient models the mutable state of the Python MCPClient
instance: the target URL and the optional session id, None at
construction (test_mcp_connection.py line 19). -/
structure MCPClient where
  server_url : String
  session_id : Option String

/-- RequestSent records one outgoing HTTP POST as the client built it:
the JSON-RPC body and the request headers. -/
structure RequestSent where
  body : Dict
  headers : List (String × String)

/-- Models the request_data construction of MCPClient.send_request
(test_mcp_connection.py lines 30-37): a fixed envelope, then
request_data["params"] = params only when params is truthy (not None
and non-empty). -/
def buildRequestData (method : String) (params : Option Dict) : Dict :=
  let base := [("jsonrpc", Json.str "2.0"), ("id", Json.num 1), ("method", Json.str method)]
  match params with
  | some ps => if ps.isEmpty then base else base ++ [("params", Json.obj ps)]
  | none => base

/-- Models the headers construction of MCPClient.send_request
(test_mcp_connection.py lines 39-45): fixed content-type and accept
headers, plus the mcp-session-id header when self.session_id is truthy
(not None and non-empty). -/
def buildHeaders (session_id : Option String) : List (String × String) :=
  let base := [("Content-Type", "application/json"), ("Accept", "application/json")]
  match session_id with
  | some s => if s ≠ "" then base ++ [("mcp-session-id", s)] else base
  | none => base

/-- Models MCPClient.send_request (test_mcp_connection.py lines
28-75).  Returns the client state after the call, the outgoing request
as constructed, and the dictionary returned to the caller.  On an
exception from client.post the state is unchanged and the error dict
carries str(e).  On a response, the session id is captured from the
mcp-session-id response header BEFORE the status check; then a 200
response returns the decoded body (a decode failure is caught by the
same except branch), and a non-200 response returns the HTTP error
dict. -/
def send_request (st : MCPClient) (method : String) (params : Option Dict)
    (net : TransportResult) : MCPClient × RequestSent × Json :=
  let req : RequestSent := ⟨buildRequestData method params, buildHeaders st.session_id⟩
  match net with
  | TransportResult.failure msg =>
      (st, req, Json.obj [("error", Json.str msg)])
  | TransportResult.success r =>
      let st' : MCPClient :=
        match r.headers.lookup "mcp-session-id" with
        | some v => { st with session_id := some v }
        | none => st
      if r.status = 200 then
        match r.jsonBody with
        | Except.ok j => (st', req, j)
        | Except.error e => (st', req, Json.obj [("error", Json.str e)])
      else
        (st', req, Json.obj [("error", Json.str ("HTTP " ++ toString r.status ++ ": " ++ r.text))])

/-- Fixed params payload of MCPClient sent by the initialize operation
(test_mcp_connection.py lines 79-88). -/
def initParams : Dict :=
  [("protocolVersion", Json.str "2024-11-05"),
   ("capabilities", Json.obj [("tools", Json.obj [])]),
   ("clientInfo", Json.obj [("name", Json.str "test-mcp-client"), ("version", Json.str "1.0.0")])]

/-- Models MCPClient.call_tool building its params dict
(test_mcp_connection.py lines 94-100): params = name, then
params["arguments"] = arguments only when arguments is truthy. -/
def callToolParams (tool_name : String) (arguments : Option Dict) : Dict :=
  let base := [("name", Json.str tool_name)]
  match arguments with
  | some args => if args.isEmpty then base else base ++ [("arguments", Json.obj args)]
  | none => base

/-- Op enumerates the three public operations of MCPClient. -/
inductive Op where
  | initializeOp : Op
  | listToolsOp : Op
  | callToolOp : String → Option Dict → Op

/-- Models running one public operation of MCPClient: initialize sends
method initialize with the fixed payload (lines 77-88), list_tools
sends tools/list with no params (lines 90-92), call_tool sends
tools/call with the params built by callToolParams (lines 94-100). -/
def runOp (st : MCPClient) (op : Op) (net : TransportResult) : MCPClient × RequestSent × Json :=
  match op with
  | Op.initializeOp => send_request st "initialize" (some initParams) net
  | Op.listToolsOp => send_request st "tools/list" none net
  | Op.callToolOp tool_name arguments =>
      send_request st "tools/call" (some (callToolParams tool_name arguments)) net

/-- Models a whole session of one MCPClient instance: a sequence of
operations, each paired with the transport outcome the network gave
it, threading the client state through and collecting the outgoing
requests in order. -/
def runTrace (st : MCPClient) : List (Op × TransportResult) → MCPClient × List RequestSent
  | [] => (st, [])
  | (op, net) :: rest =>
      let x := runOp st op net
      let y := runTrace x.1 rest
      (y.1, x.2.1 :: y.2)

/-- The session header values carried by the successful responses of a
trace, in order (values of the mcp-session-id response header). -/
def capturedSessions : List (Op × TransportResult) → List String
  | [] => []
  | (_, TransportResult.failure _) :: rest => capturedSessions rest
  | (_, TransportResult.success r) :: rest =>
      match r.headers.lookup "mcp-session-id" with
      | some v => v :: capturedSessions rest
      | none => capturedSessions rest

/-- Models the request_data construction of MCPSSEClient.send_mcp_request
(test_mcp_sse.py lines 51-58): the same JSON-RPC envelope as the
request/response client, with request_data["params"] = params only
when params is truthy. -/
def sse_request_data (method : String) (params : Option Dict) : Dict :=
  let base := [("jsonrpc", Json.str "2.0"), ("id", Json.num 1), ("method", Json.str method)]
  match params with
  | some ps => if ps.isEmpty then base else base ++ [("params", Json.obj ps)]
  | none => base

/-- StreamResponse models the streamed GET response as observed by
MCPSSEClient.connect_sse: the status code, the lines that
response.aiter_lines() delivers before any transport error, and the
transport error, if any, that aiter_lines raises after those lines
(none when the server closes the stream cleanly). -/
structure StreamResponse where
  status : Nat
  lines : List String
  midError : Option String

/-- StreamOutcome is what the consumer of the connect_sse async
generator observes: the lines yielded to it, in order, and the
exception, if any, that propagates out of the generator to the
consumer. -/
structure StreamOutcome where
  yielded : List String
  error : Option String

/-- A line is blank when every character is whitespace, i.e. exactly
when Python line.strip() is falsy (the stripped line is empty). -/
def isBlank (line : String) : Bool :=
  line.data.all Char.isWhitespace

/-- Models the line loop of MCPSSEClient.connect_sse
(test_mcp_sse.py lines 44-47): for each delivered line, yield it when
line.strip() is truthy (non-empty after stripping whitespace),
otherwise skip it. -/
def sseLoop : List String → List String
  | [] => []
  | line :: rest => if isBlank line then sseLoop rest else line :: sseLoop rest

/-- Models MCPSSEClient.connect_sse (test_mcp_sse.py lines 27-47):
on a non-200 status the generator returns at once (zero lines yielded,
no exception); on a 200 status it runs the line loop over the
delivered lines, and a transport error raised by aiter_lines
propagates out of the generator (there is no try/except in
connect_sse), after the already-yielded lines. -/
def connect_sse (r : StreamResponse) : StreamOutcome :=
  if r.status ≠ 200 then ⟨[], none⟩
  else ⟨sseLoop r.lines, r.midError⟩

/-- Split a character list at every LF, keeping the (possibly empty)
segments between them; a trailing LF thus contributes no extra final
segment beyond the empty one, which splitlines drops below. -/
def splitNl : List Char → List (List Char)
  | [] => [[]]
  | c :: cs =>
      match splitNl cs with
      | [] => [[]]
      | h :: t => if c = '\n' then [] :: h :: t else (c :: h) :: t

/-- Models the splitting of a raw LF-delimited response body into the
lines that response.aiter_lines() delivers (Python str.splitlines for
a body whose newlines are all LF): split at every newline, with no
trailing empty line when the body ends in a newline, and no line at
all for an empty body. -/
def splitlines (body : String) : List String :=
  let parts := (splitNl body.data).map (fun cs => String.mk cs)
  match body.data.getLast? with
  | none => []
  | some c => if c = '\n' then parts.dropLast else parts

/-- The JSON-RPC method string each MCPClient operation sends. -/
def opMethod : Op → String
  | Op.initializeOp => "initialize"
  | Op.listToolsOp => "tools/list"
  | Op.callToolOp _ _ => "tools/call"

/-- The params each MCPClient operation passes to send_request. -/
def opParams : Op → Option Dict
  | Op.initializeOp => some initParams
  | Op.listToolsOp => none
  | Op.callToolOp tool_name arguments => some (callToolParams tool_name arguments)

/-- Python truthiness filter on the stored session id: the value the
client will actually place in the mcp-session-id request header (none
when the stored value is absent or empty, since if self.session_id:
is then falsy). -/
def truthySession : Option String → Option String
  | some s => if s = "" then none else some s
  | none => none

/-- The stored session id as it stands immediately before each step of
a trace. -/
def sessionsBefore (st : MCPClient) : List (Op × TransportResult) → List (Option String)
  | [] => []
  | (op, net) :: rest => st.session_id :: sessionsBefore (runOp st op net).1 rest

/-- Concrete 200 response whose mcp-session-id header carries s1. -/
def respS1 : HttpResponse :=
  ⟨200, [("mcp-session-id", "s1")], Except.ok (Json.obj []), ""⟩

/-- Concrete 200 response whose mcp-session-id header carries s2. -/
def respS2 : HttpResponse :=
  ⟨200, [("mcp-session-id", "s2")], Except.ok (Json.obj []), ""⟩

/-- A three-exchange session: the first response hands out session id
s1, the second hands out a different id s2, the third exchange fails
at the transport level. -/
def twoSessionTrace : List (Op × TransportResult) :=
  [(Op.initializeOp, TransportResult.success respS1),
   (Op.listToolsOp, TransportResult.success respS2),
   (Op.listToolsOp, TransportResult.failure "connection reset")]

/-- Concrete 500 response that carries an EMPTY mcp-session-id header
value and a non-JSON body. -/
def respEmptySession : HttpResponse :=
  ⟨500, [("mcp-session-id", "")], Except.error "not json", "Internal Server Error"⟩

lemma runOp_eq (st : MCPClient) (op : Op) (net : TransportResult) :
    runOp st op net = send_request st (opMethod op) (opParams op) net := by
  cases op <;> rfl

lemma send_request_req (st : MCPClient) (m : String) (p : Option Dict) (net : TransportResult) :
    (send_request st m p net).2.1 = ⟨buildRequestData m p, buildHeaders st.session_id⟩ := by
  cases net with
  | failure msg => rfl
  | success r =>
    simp only [send_request]
    by_cases hs : r.status = 200
    · simp only [hs, if_true]
      cases r.jsonBody <;> rfl
    · simp [hs]

lemma send_request_state_success (st : MCPClient) (m : String) (p : Option Dict)
    (r : HttpResponse) :
    (send_request st m p (TransportResult.success r)).1 =
      (match r.headers.lookup "mcp-session-id" with
       | some v => { st with session_id := some v }
       | none => st) := by
  simp only [send_request]
  by_cases hs : r.status = 200
  · simp only [hs, if_true]
    cases r.jsonBody <;> rfl
  · simp [hs]

lemma send_request_state_failure (st : MCPClient) (m : String) (p : Option Dict) (msg : String) :
    (send_request st m p (TransportResult.failure msg)).1 = st := rfl

lemma sseLoop_eq_filter (ls : List String) :
    sseLoop ls = ls.filter (fun l => !isBlank l) := by
  induction ls with
  | nil => rfl
  | cons l rest ih =>
    cases hb : isBlank l <;> simp [sseLoop, hb, ih, List.filter_cons]

lemma runOp_state_failure (st : MCPClient) (op : Op) (msg : String) :
    (runOp st op (TransportResult.failure msg)).1 = st := by
  rw [runOp_eq]
  rfl

lemma runOp_state_success (st : MCPClient) (op : Op) (r : HttpResponse) :
    (runOp st op (TransportResult.success r)).1 =
      (match r.headers.lookup "mcp-session-id" with
       | some v => { st with session_id := some v }
       | none => st) := by
  rw [runOp_eq, send_request_state_success]

lemma request_session_header (st : MCPClient) (op : Op) (net : TransportResult) :
    (runOp st op net).2.1.headers.lookup "mcp-session-id" = truthySession st.session_id := by
  rw [runOp_eq, send_request_req]
  cases st.session_id with
  | none => rfl
  | some s =>
    by_cases hs : s = ""
    · simp only [buildHeaders, truthySession, hs]
      rfl
    · simp only [buildHeaders, truthySession]
      rw [if_pos hs, if_neg hs]
      rfl

lemma runTrace_cons (st : MCPClient) (op : Op) (net : TransportResult)
    (rest : List (Op × TransportResult)) :
    runTrace st ((op, net) :: rest) =
      ((runTrace (runOp st op net).1 rest).1,
        (runOp st op net).2.1 :: (runTrace (runOp st op net).1 rest).2) := rfl

lemma getLast?_cons_or {α : Type} (l : List α) (a : α) (i : Option α) :
    ((a :: l).getLast?).or i = (l.getLast?).or (some a) := by
  cases l with
  | nil => rfl
  | cons b l' =>
    rw [List.getLast?_cons_cons]
    have hne : (b :: l').getLast?.isSome := by
      rw [List.getLast?_isSome]
      exact List.cons_ne_nil b l'
    obtain ⟨x, hx⟩ := Option.isSome_iff_exists.mp hne
    rw [hx]
    rfl

/-- Claim C4: call_tool without an arguments mapping sends params
exactly equal to the one-key dict name = tool_name, with no arguments
key; call_tool with a non-empty arguments mapping sends params exactly
equal to the two-key dict name = tool_name, arguments = args. -/
theorem call_tool_params_shape (st : MCPClient) (tool_name : String)
    (args : Dict) (net : TransportResult) (h : args ≠ []) :
    (runOp st (Op.callToolOp tool_name none) net).2.1.body.lookup "params"
      = some (Json.obj [("name", Json.str tool_name)]) ∧
    (runOp st (Op.callToolOp tool_name (some args)) net).2.1.body.lookup "params"
      = some (Json.obj [("name", Json.str tool_name), ("arguments", Json.obj args)]) := by
  cases args with
  | nil => exact absurd rfl h
  | cons a l =>
    rw [runOp_eq, runOp_eq, send_request_req, send_request_req]
    exact ⟨rfl, rfl⟩

/-- Witness for call_tool_params_shape at a concrete client, tool name,
argument dict and transport outcome. -/
theorem call_tool_params_shape_witness :
    (runOp ⟨"https://mcp.penguinbank.cloud", none⟩
        (Op.callToolOp "get_balance" none) (TransportResult.failure "down")).2.1.body.lookup "params"
      = some (Json.obj [("name", Json.str "get_balance")]) ∧
    (runOp ⟨"https://mcp.penguinbank.cloud", none⟩
        (Op.callToolOp "get_balance" (some [("account", Json.num 7)]))
        (TransportResult.failure "down")).2.1.body.lookup "params"
      = some (Json.obj [("name", Json.str "get_balance"),
                        ("arguments", Json.obj [("account", Json.num 7)])]) :=
  call_tool_params_shape ⟨"https://mcp.penguinbank.cloud", none⟩ "get_balance"
    [("account", Json.num 7)] (TransportResult.failure "down") (List.cons_ne_nil _ _)

/-- Claim C9: call_tool invoked with an explicitly empty arguments
mapping produces exactly the same outgoing request, state transition
and returned value as call_tool with no arguments: the arguments key
is omitted whenever the supplied mapping is empty or None, so the two
calls are indistinguishable on the wire. -/
theorem call_tool_empty_args_no_op (st : MCPClient) (tool_name : String)
    (net : TransportResult) :
    runOp st (Op.callToolOp tool_name (some [])) net
      = runOp st (Op.callToolOp tool_name none) net := rfl

/-- Claim C5: every request body produced by either client is a
JSON-RPC envelope: the bodies built by the two clients coincide, the
body sent by send_request is exactly the built envelope, jsonrpc is
the string 2.0, id is the fixed literal 1, method is always present
(and equal to the requested method), and the params key is omitted
entirely when params is None or empty, and carries exactly the given
params object otherwise. -/
theorem envelope_shape (method : String) (params : Option Dict)
    (st : MCPClient) (net : TransportResult) :
    sse_request_data method params = buildRequestData method params ∧
    (send_request st method params net).2.1.body = buildRequestData method params ∧
    (buildRequestData method params).lookup "jsonrpc" = some (Json.str "2.0") ∧
    (buildRequestData method params).lookup "id" = some (Json.num 1) ∧
    (buildRequestData method params).lookup "method" = some (Json.str method) ∧
    ((params = none ∨ params = some []) →
      (buildRequestData method params).lookup "params" = none) ∧
    (∀ ps, params = some ps → ps ≠ [] →
      (buildRequestData method params).lookup "params" = some (Json.obj ps)) := by
  have hbody : (send_request st method params net).2.1.body = buildRequestData method params := by
    rw [send_request_req]
  refine ⟨rfl, hbody, ?_, ?_, ?_, ?_, ?_⟩
  · cases params with
    | none => rfl
    | some ps => cases ps <;> rfl
  · cases params with
    | none => rfl
    | some ps => cases ps <;> rfl
  · cases params with
    | none => rfl
    | some ps => cases ps <;> rfl
  · rintro (rfl | rfl) <;> rfl
  · rintro ps rfl hne
    cases ps with
    | nil => exact absurd rfl hne
    | cons a l => rfl

/-- Witness for envelope_shape at a concrete method, params, client
and transport outcome, instantiating every embedded implication. -/
theorem envelope_shape_witness :
    sse_request_data "tools/list" none = buildRequestData "tools/list" none ∧
    (send_request ⟨"https://mcp.penguinbank.cloud", none⟩ "tools/list" none
        (TransportResult.failure "refused")).2.1.body = buildRequestData "tools/list" none ∧
    (buildRequestData "tools/list" none).lookup "jsonrpc" = some (Json.str "2.0") ∧
    (buildRequestData "tools/list" none).lookup "id" = some (Json.num 1) ∧
    (buildRequestData "tools/list" none).lookup "method" = some (Json.str "tools/list") ∧
    ((none = (none : Option Dict) ∨ (none : Option Dict) = some ([] : Dict)) →
      (buildRequestData "tools/list" none).lookup "params" = none) ∧
    (∀ ps, (none : Option Dict) = some ps → ps ≠ [] →
      (buildRequestData "tools/list" none).lookup "params" = some (Json.obj ps)) :=
  envelope_shape "tools/list" none ⟨"https://mcp.penguinbank.cloud", none⟩
    (TransportResult.failure "refused")

/-- Claim C6: when the streamed GET is answered with a non-200 status,
connect_sse yields zero events and raises nothing to the consumer. -/
theorem connect_sse_non200_yields_nothing (r : StreamResponse) (h : r.status ≠ 200) :
    connect_sse r = ⟨[], none⟩ := by
  simp [connect_sse, h]

/-- Witness for connect_sse_non200_yields_nothing on a concrete 404
response that even had pending lines and a pending transport error. -/
theorem connect_sse_non200_yields_nothing_witness :
    (404 : Nat) ≠ 200 ∧ connect_sse ⟨404, ["event: x"], some "boom"⟩ = ⟨[], none⟩ :=
  ⟨by decide, connect_sse_non200_yields_nothing ⟨404, ["event: x"], some "boom"⟩ (by decide)⟩

/-- Counterexample to claim C7: a transport error occurring mid-stream
(after a successful 200 connect) is NOT swallowed by connect_sse
(which has no try/except around aiter_lines): it propagates out of
the generator to the consumer after the already-yielded lines, so the
consumer observes an exception, distinguishable from a clean close. -/
theorem midstream_error_reaches_consumer :
    (connect_sse ⟨200, ["data: hello"], some "ConnectionResetError"⟩).error
      = some "ConnectionResetError" ∧
    (connect_sse ⟨200, ["data: hello"], some "ConnectionResetError"⟩).yielded
      = ["data: hello"] ∧
    (some "ConnectionResetError" : Option String) ≠ none := by
  refine ⟨rfl, rfl, by simp⟩

/-- Amended claim C7: after a successful 200 connect, connect_sse
yields the non-blank lines delivered before the failure and then
propagates the mid-stream transport error to the consumer as an
exception, while a cleanly closed stream ends with no exception — so
the consumer CAN distinguish a clean server close from a dropped
connection. -/
theorem midstream_error_after_yield (ls : List String) (err : String) :
    connect_sse ⟨200, ls, some err⟩ = ⟨sseLoop ls, some err⟩ ∧
    connect_sse ⟨200, ls, none⟩ = ⟨sseLoop ls, none⟩ := by
  constructor <;> simp [connect_sse]

/-- Claim C8: on a 200 connect the lines yielded by connect_sse are
exactly the delivered lines that are non-blank after stripping
whitespace, in order and with their original (unstripped) content; in
particular the raw LF-delimited body data: (open brace)"a":1(close
brace) LF LF foo LF LF yields exactly the two lines shown. -/
theorem connect_sse_yields_exactly_nonblank (ls : List String) (merr : Option String) :
    (connect_sse ⟨200, ls, merr⟩).yielded = ls.filter (fun l => !isBlank l) ∧
    (connect_sse ⟨200, splitlines "data: \x7b\"a\":1\x7d\n\nfoo\n\n", none⟩).yielded
      = ["data: \x7b\"a\":1\x7d", "foo"] := by
  constructor
  · simp [connect_sse, sseLoop_eq_filter]
  · rfl

/-- Counterexample to claim C2: the session handle is NOT set at most
once.  After the first response carries s1 the handle is s1, but the
second response carrying a different session header reassigns it to
s2 (test_mcp_connection.py lines 61-62 assign unconditionally on every
response that carries the header). -/
theorem session_id_reassigned :
    (runTrace ⟨"https://mcp.penguinbank.cloud", none⟩
        [(Op.initializeOp, TransportResult.success respS1)]).1.session_id = some "s1" ∧
    (runTrace ⟨"https://mcp.penguinbank.cloud", none⟩
        [(Op.initializeOp, TransportResult.success respS1),
         (Op.listToolsOp, TransportResult.success respS2)]).1.session_id = some "s2" ∧
    "s1" ≠ "s2" := by
  refine ⟨rfl, rfl, by decide⟩

/-- Amended claim C2: the session handle is absent at construction and
is assigned by EVERY response that carries the session header, last
writer wins: after any sequence of exchanges it equals the header
value of the most recent response that carried one (and the initial
value when none did); it is never invalidated, only replaced. -/
theorem session_id_last_capture (ops : List (Op × TransportResult)) (st : MCPClient) :
    (runTrace st ops).1.session_id = ((capturedSessions ops).getLast?).or st.session_id := by
  induction ops generalizing st with
  | nil => simp [runTrace, capturedSessions]
  | cons p rest ih =>
    obtain ⟨op, net⟩ := p
    rw [runTrace_cons]
    cases net with
    | failure msg =>
      show (runTrace (runOp st op (TransportResult.failure msg)).1 rest).1.session_id = _
      rw [ih, runOp_state_failure]
      rfl
    | success r =>
      show (runTrace (runOp st op (TransportResult.success r)).1 rest).1.session_id = _
      rw [ih, runOp_state_success]
      cases h : r.headers.lookup "mcp-session-id" with
      | none =>
        simp only [capturedSessions, h]
      | some v =>
        simp only [capturedSessions, h]
        rw [getLast?_cons_or]

/-- Counterexample to claim C1: after the first server response has
carried the mcp-session-id header with value s1, a subsequent outgoing
request does NOT include that identifier unchanged: once the second
response hands out s2, the third request carries s2, not s1. -/
theorem session_header_changes :
    respS1.headers.lookup "mcp-session-id" = some "s1" ∧
    (runTrace ⟨"https://mcp.penguinbank.cloud", none⟩ twoSessionTrace).2.map
        (fun q => q.headers.lookup "mcp-session-id")
      = [none, some "s1", some "s2"] ∧
    (some "s2" : Option String) ≠ some "s1" := by
  refine ⟨rfl, rfl, by decide⟩

/-- Amended claim C1: each outgoing request of a trace includes as its
mcp-session-id header exactly the session id stored at the moment the
request is built — i.e. the value captured from the most recent
response that carried the session header — provided that value is
non-empty; the header is omitted while the stored id is absent or
empty. -/
theorem session_header_matches_state (ops : List (Op × TransportResult)) (st : MCPClient) :
    (runTrace st ops).2.map (fun q => q.headers.lookup "mcp-session-id")
      = (sessionsBefore st ops).map truthySession := by
  induction ops generalizing st with
  | nil => rfl
  | cons p rest ih =>
    obtain ⟨op, net⟩ := p
    rw [runTrace_cons]
    simp only [List.map_cons, sessionsBefore]
    rw [request_session_header st op net, ih (runOp st op net).1]

/-- Counterexample to claim C3: a transport-level failure whose
exception text is empty (str(e) is the empty string, as happens for
instance with an httpx timeout raised without a message) yields a
dictionary whose error key holds the EMPTY string, so the value under
the error key is not a non-empty string as claimed. -/
theorem transport_error_empty_string :
    getStr (getKey (runOp ⟨"https://mcp.penguinbank.cloud", none⟩ Op.initializeOp
        (TransportResult.failure "")).2.2 "error") = some "" ∧
    getKey (runOp ⟨"https://mcp.penguinbank.cloud", none⟩ Op.initializeOp
        (TransportResult.failure "")).2.2 "result" = none :=
  ⟨rfl, rfl⟩

/-- Amended claim C3: for initialize, list_tools and call_tool alike,
a transport-level failure yields a dictionary whose error key holds
exactly the exception text (which the code does not guarantee to be
non-empty) and which has no result key, and a non-200 HTTP status
yields a dictionary whose error key holds the non-empty string
HTTP status: body and which has no result key; in the model both
paths return normally, mirroring that the operation never raises. -/
theorem error_result_shape (st : MCPClient) (op : Op) (net : TransportResult) :
    (∀ msg, net = TransportResult.failure msg →
      getKey (runOp st op net).2.2 "error" = some (Json.str msg) ∧
      getKey (runOp st op net).2.2 "result" = none) ∧
    (∀ r, net = TransportResult.success r → r.status ≠ 200 →
      ∃ e, getKey (runOp st op net).2.2 "error" = some (Json.str e) ∧ e ≠ "" ∧
        getKey (runOp st op net).2.2 "result" = none) := by
  constructor
  · rintro msg rfl
    rw [runOp_eq]
    exact ⟨rfl, rfl⟩
  · rintro r rfl hs
    rw [runOp_eq]
    refine ⟨"HTTP " ++ toString r.status ++ ": " ++ r.text, ?_, ?_, ?_⟩
    · simp only [send_request]
      rw [if_neg hs]
      rfl
    · intro h
      have h2 : ("HTTP " ++ toString r.status ++ ": " ++ r.text).data = [] := by rw [h]
      simp [String.data_append] at h2
    · simp only [send_request]
      rw [if_neg hs]
      rfl

/-- Witness for error_result_shape on a concrete client, operation and
500 response, instantiating both embedded implications. -/
theorem error_result_shape_witness :
    ((∀ msg, TransportResult.success ⟨500, [], Except.error "not json", "oops"⟩
        = TransportResult.failure msg →
      getKey (runOp ⟨"https://mcp.penguinbank.cloud", none⟩ Op.listToolsOp
          (TransportResult.success ⟨500, [], Except.error "not json", "oops"⟩)).2.2 "error"
        = some (Json.str msg) ∧
      getKey (runOp ⟨"https://mcp.penguinbank.cloud", none⟩ Op.listToolsOp
          (TransportResult.success ⟨500, [], Except.error "not json", "oops"⟩)).2.2 "result"
        = none) ∧
    (∀ r, TransportResult.success ⟨500, [], Except.error "not json", "oops"⟩
        = TransportResult.success r → r.status ≠ 200 →
      ∃ e, getKey (runOp ⟨"https://mcp.penguinbank.cloud", none⟩ Op.listToolsOp
          (TransportResult.success ⟨500, [], Except.error "not json", "oops"⟩)).2.2 "error"
          = some (Json.str e) ∧ e ≠ "" ∧
        getKey (runOp ⟨"https://mcp.penguinbank.cloud", none⟩ Op.listToolsOp
          (TransportResult.success ⟨500, [], Except.error "not json", "oops"⟩)).2.2 "result"
          = none)) :=
  error_result_shape ⟨"https://mcp.penguinbank.cloud", none⟩ Op.listToolsOp
    (TransportResult.success ⟨500, [], Except.error "not json", "oops"⟩)

/-- Counterexample to claim C10: the capture-before-status-check part
holds, but the new value is NOT sent on all subsequent requests: a
non-200 response carrying an empty session header value updates the
stored handle to the empty string, which if self.session_id: then
treats as falsy, so the following request carries no mcp-session-id
header at all. -/
theorem error_capture_not_sent :
    ((runOp ⟨"https://mcp.penguinbank.cloud", none⟩ Op.initializeOp
        (TransportResult.success respEmptySession)).1).session_id = some "" ∧
    (runOp (runOp ⟨"https://mcp.penguinbank.cloud", none⟩ Op.initializeOp
        (TransportResult.success respEmptySession)).1 Op.listToolsOp
        (TransportResult.failure "down")).2.1.headers.lookup "mcp-session-id" = none :=
  ⟨rfl, rfl⟩

/-- Amended claim C10: the request/response client captures the
mcp-session-id header before checking the HTTP status, so a non-200
exchange whose response carries the header still updates the stored
session handle to the carried value (client state is not left
unchanged on error) while returning an error-shaped result; and every
request issued while that value remains the stored session id
includes it as the mcp-session-id header, provided it is non-empty
(an empty captured value is stored but never echoed). -/
theorem error_response_updates_session (st : MCPClient) (op : Op) (r : HttpResponse)
    (v : String) (hv : r.headers.lookup "mcp-session-id" = some v) (hs : r.status ≠ 200) :
    (runOp st op (TransportResult.success r)).1.session_id = some v ∧
    getKey (runOp st op (TransportResult.success r)).2.2 "error"
      = some (Json.str ("HTTP " ++ toString r.status ++ ": " ++ r.text)) ∧
    (v ≠ "" → ∀ (op2 : Op) (net2 : TransportResult),
      (runOp (runOp st op (TransportResult.success r)).1 op2 net2).2.1.headers.lookup
          "mcp-session-id" = some v) := by
  have hstate : (runOp st op (TransportResult.success r)).1 = { st with session_id := some v } := by
    rw [runOp_state_success, hv]
  refine ⟨?_, ?_, ?_⟩
  · rw [hstate]
  · rw [runOp_eq]
    simp only [send_request]
    rw [if_neg hs]
    rfl
  · intro hne op2 net2
    rw [request_session_header, hstate]
    simp only [truthySession]
    rw [if_neg hne]

/-- Witness for error_response_updates_session on a concrete client,
operation and 500 response carrying session id z9. -/
theorem error_response_updates_session_witness :
    (runOp ⟨"https://mcp.penguinbank.cloud", none⟩ Op.initializeOp
        (TransportResult.success ⟨500, [("mcp-session-id", "z9")], Except.error "not json",
          "oops"⟩)).1.session_id = some "z9" ∧
    getKey (runOp ⟨"https://mcp.penguinbank.cloud", none⟩ Op.initializeOp
        (TransportResult.success ⟨500, [("mcp-session-id", "z9")], Except.error "not json",
          "oops"⟩)).2.2 "error"
      = some (Json.str ("HTTP " ++ toString (500 : Nat) ++ ": " ++ "oops")) ∧
    ("z9" ≠ "" → ∀ (op2 : Op) (net2 : TransportResult),
      (runOp (runOp ⟨"https://mcp.penguinbank.cloud", none⟩ Op.initializeOp
          (TransportResult.success ⟨500, [("mcp-session-id", "z9")], Except.error "not json",
            "oops"⟩)).1 op2 net2).2.1.headers.lookup "mcp-session-id" = some "z9") :=
  error_response_updates_session ⟨"https://mcp.penguinbank.cloud", none⟩ Op.initializeOp
    ⟨500, [("mcp-session-id", "z9")], Except.error "not json", "oops"⟩ "z9" rfl (by decide)
